import Mathlib

/-!
Verification of the flashcard-generation and answer-grading core of the
dynamic-flashcards application.

The embedding below is a shallow embedding of the TypeScript source:

* `generateFakeOptions`, `buildFlashcards`, `generateFlashcards` embed
  `src/server/src/handlers/generate_flashcards.ts`;
* `gradeAnswer` embeds the grading core of `submitAnswer`
  (the handler that fetches a flashcard, grades the user answer, and stores
  the result).

JavaScript numbers are modelled as exact decimal rationals (`JSNumber`, a
mantissa together with a power-of-ten denominator).  This model is an
idealisation of IEEE binary64: it has no Infinity, does not round, and its
rendering never switches to exponential notation, so it diverges from the
runtime on extreme inputs (such as "Infinity", "1e21", or 17-significant-
digit literals).  On small decimal inputs — in particular every concrete
numeric input appearing in a statement below — `parseFloat`, the `v + 1`,
`v - 1`, `v * 2` arithmetic, and `Number.prototype.toString` are exact in
binary64 and agree with the model; no theorem below quantifies over the
numeric branch beyond facts (list length, membership of those concrete
traces) that are insensitive to the idealisation.  `jsParseFloat` models
`parseFloat`'s finite-literal grammar (leading whitespace, optional sign,
decimal digits with an optional fraction and exponent, longest valid
prefix; `none` plays the role of `NaN`), and `JSNumber.render` models
`Number.prototype.toString` on such values (integers print with no
fractional part, fractions print with no trailing zeros).

The `Math.random()`-based shuffle (`allOptions.sort(() => Math.random() - 0.5)`)
always returns some permutation of its input, so the generator is
parameterised by a `shuffle : List String → List String` together with the
hypothesis that it permutes its argument.

Database access is modelled by an explicit `DB` value: the handler looks the
instance up by id, joins the instance's property values with their property
definitions, and either fails (with the source's error messages) before
anything is persisted, or succeeds with the full generated batch.
-/

namespace DynamicFlashcards

/-- Property types, from the `property_type` enum of the schema:
`'string' | 'number' | 'boolean'`. -/
inductive PropertyType
  | string
  | number
  | boolean
deriving DecidableEq, Repr

/-- Flashcard types, from the `flashcard_type` enum of the schema:
`'true_false' | 'multiple_choice' | 'fill_in_blank'`. -/
inductive FlashcardType
  | true_false
  | multiple_choice
  | fill_in_blank
deriving DecidableEq, Repr

/-- A property definition row (the fields of `propertiesTable` that the
generator reads). -/
structure Property where
  id : Nat
  name : String
  property_type : PropertyType
deriving DecidableEq, Repr

/-- A property-value row (the fields of `propertyValuesTable` that the
generator reads). -/
structure PropertyValue where
  instance_id : Nat
  property_id : Nat
  value : String
deriving DecidableEq, Repr

/-- An instance row (the fields of `instancesTable` that the generator
reads). -/
structure InstanceRow where
  id : Nat
  name : String
deriving DecidableEq, Repr

/-- A generated flashcard, as assembled by `generateFlashcards` before
insertion (`options = none` models the SQL `NULL`). -/
structure Flashcard where
  instance_id : Nat
  property_id : Nat
  flashcard_type : FlashcardType
  question : String
  correct_answer : String
  options : Option (List String)
deriving DecidableEq, Repr

/-! ## An exact decimal model of JavaScript numbers -/

/-- `pow10 e = 10 ^ e`, defined structurally so concrete statements reduce. -/
def pow10 : Nat → Nat
  | 0 => 1
  | e + 1 => 10 * pow10 e

/-- A JavaScript number modelled as the exact decimal rational
`num / 10 ^ exp` (not necessarily in lowest terms). -/
structure JSNumber where
  num : Int
  exp : Nat
deriving DecidableEq, Repr

/-- Addition: align the two denominators, add the mantissas. -/
def JSNumber.add (a b : JSNumber) : JSNumber :=
  let e := max a.exp b.exp
  ⟨a.num * (pow10 (e - a.exp) : Nat) + b.num * (pow10 (e - b.exp) : Nat), e⟩

/-- Subtraction: align the two denominators, subtract the mantissas. -/
def JSNumber.sub (a b : JSNumber) : JSNumber :=
  let e := max a.exp b.exp
  ⟨a.num * (pow10 (e - a.exp) : Nat) - b.num * (pow10 (e - b.exp) : Nat), e⟩

/-- Multiplication of exact decimals. -/
def JSNumber.mul (a b : JSNumber) : JSNumber :=
  ⟨a.num * b.num, a.exp + b.exp⟩

/-- The integer `k` as an exact decimal. -/
def JSNumber.ofInt (k : Int) : JSNumber :=
  ⟨k, 0⟩

/-- Value of a list of decimal digit characters, most significant first. -/
def digitsVal (ds : List Char) : Nat :=
  ds.foldl (fun acc c => acc * 10 + (c.toNat - 48)) 0

/-- Exponent part of a number literal (`parseFloat` semantics: optional sign
followed by digits; an exponent with no digits is ignored). -/
def parseExpPart (cs : List Char) : Int :=
  let (sgn, cs) :=
    match cs with
    | '-' :: rest => ((-1 : Int), rest)
    | '+' :: rest => ((1 : Int), rest)
    | _ => ((1 : Int), cs)
  let ds := cs.takeWhile (fun c : Char => c.isDigit)
  if ds.isEmpty then 0 else sgn * (digitsVal ds : Int)

/-- Model of JavaScript `parseFloat`: skip leading whitespace, optional sign,
then the longest prefix of the form `digits [. digits] [e|E exponent]`
(with at least one digit before or after the dot).  `none` plays the role of
`NaN`. -/
def jsParseFloat (s : String) : Option JSNumber :=
  let cs := s.toList.dropWhile (fun c : Char => c.isWhitespace)
  let (neg, cs) :=
    match cs with
    | '-' :: rest => (true, rest)
    | '+' :: rest => (false, rest)
    | _ => (false, cs)
  let intDigits := cs.takeWhile (fun c : Char => c.isDigit)
  let cs := cs.dropWhile (fun c : Char => c.isDigit)
  let (fracDigits, cs) :=
    match cs with
    | '.' :: rest =>
      (rest.takeWhile (fun c : Char => c.isDigit), rest.dropWhile (fun c : Char => c.isDigit))
    | _ => (([] : List Char), cs)
  if intDigits.isEmpty && fracDigits.isEmpty then
    none
  else
    let mantissa : Nat := digitsVal intDigits * pow10 fracDigits.length + digitsVal fracDigits
    let e : Int :=
      match cs with
      | 'e' :: rest => parseExpPart rest
      | 'E' :: rest => parseExpPart rest
      | _ => 0
    let scaled : Nat × Nat :=
      if 0 ≤ e then (mantissa * pow10 e.toNat, fracDigits.length)
      else (mantissa, fracDigits.length + (-e).toNat)
    some ⟨if neg then -(scaled.1 : Int) else (scaled.1 : Int), scaled.2⟩

/-- Decimal digits of a natural number, most significant first (fuel-based;
`n + 1` units of fuel always suffice since the argument shrinks by `/ 10`). -/
def natDigitsAux : Nat → Nat → List Char
  | 0, _ => []
  | _ + 1, 0 => []
  | fuel + 1, n => natDigitsAux fuel (n / 10) ++ [Char.ofNat (48 + n % 10)]

/-- Decimal rendering of a natural number. -/
def natToDigits (n : Nat) : List Char :=
  if n = 0 then ['0'] else natDigitsAux (n + 1) n

/-- Strip factors of ten shared by the mantissa and the denominator, so the
decimal expansion printed below has no trailing zeros (fuel-based; fuel `e`
suffices since the exponent drops at each step). -/
def stripTenFactors : Nat → Nat → Nat → Nat × Nat
  | 0, n, e => (n, e)
  | fuel + 1, n, e =>
    if e = 0 then (n, 0)
    else if n % 10 = 0 then stripTenFactors fuel (n / 10) (e - 1)
    else (n, e)

/-- Left-pad a digit list with `'0'` to length `k`. -/
def padLeftZeros (ds : List Char) (k : Nat) : List Char :=
  List.replicate (k - ds.length) '0' ++ ds

/-- Model of JavaScript `Number.prototype.toString` on exact decimals:
integers print with no fractional part, fractions print their shortest
decimal expansion (no trailing zeros). -/
def JSNumber.render (v : JSNumber) : String :=
  let (a, k) := stripTenFactors v.exp v.num.natAbs v.exp
  if a = 0 then "0"
  else
    let sign := if v.num < 0 then "-" else ""
    if k = 0 then
      sign ++ String.mk (natToDigits a)
    else
      sign ++ String.mk (natToDigits (a / pow10 k)) ++ "." ++
        String.mk (padLeftZeros (natToDigits (a % pow10 k)) k)

/-! ## The fake-option synthesizer -/

/-- The fixed decoy pool of the `string` branch of `generateFakeOptions`. -/
def commonFakes : List String :=
  ["Unknown", "Not Available", "Placeholder", "Default Value", "Sample Text", "Test Data"]

/-- The `while (fakeOptions.length < 3)` loop of the `string` branch,
fuel-based (the loop body is unreachable in practice because the filtered
pool always retains at least five of its six entries; on the source's
non-terminating state — the generic option equal to the correct answer —
the fuel runs out and the accumulator is returned unchanged). -/
def fillGenericOptions : Nat → List String → String → List String
  | 0, acc, _ => acc
  | fuel + 1, acc, correctAnswer =>
    if acc.length < 3 then
      let genericOption := "Option " ++ String.mk (natToDigits (acc.length + 1))
      if genericOption ≠ correctAnswer then
        fillGenericOptions fuel (acc ++ [genericOption]) correctAnswer
      else
        fillGenericOptions fuel acc correctAnswer
    else
      acc

/-- Embedding of `generateFakeOptions` (generate_flashcards.ts, lines
101-150): three decoys per property type, truncated to 3 by the final
`slice(0, 3)`. -/
def generateFakeOptions (correctAnswer : String) (propertyType : PropertyType) : List String :=
  let fakeOptions : List String :=
    match propertyType with
    | .number =>
      match jsParseFloat correctAnswer with
      | some num =>
        [(num.add (JSNumber.ofInt 1)).render, (num.sub (JSNumber.ofInt 1)).render,
          (num.mul (JSNumber.ofInt 2)).render]
      | none => ["42", "0", "100"]
    | .boolean =>
      [if correctAnswer = "true" then "false" else "true", "maybe", "unknown"]
    | .string =>
      let availableFakes := commonFakes.filter (fun fake => fake != correctAnswer)
      fillGenericOptions 4 (availableFakes.take 3) correctAnswer
  fakeOptions.take 3

/-! ## The flashcard assembler -/

/-- The true/false card of one `(property value, property)` row
(generate_flashcards.ts, lines 44-51). -/
def trueFalseFlashcard (instance_id : Nat) (instanceName : String)
    (propertyValue : PropertyValue) (property : Property) : Flashcard :=
  { instance_id := instance_id
    property_id := property.id
    flashcard_type := .true_false
    question := "Is the " ++ property.name ++ " of '" ++ instanceName ++ "' equal to '" ++
      propertyValue.value ++ "'?"
    correct_answer := "true"
    options := none }

/-- The multiple-choice card of one row (generate_flashcards.ts, lines
53-67): the correct answer prepended to the three fake options, then
shuffled. -/
def multipleChoiceFlashcard (shuffle : List String → List String) (instance_id : Nat)
    (instanceName : String) (propertyValue : PropertyValue) (property : Property) : Flashcard :=
  let correctAnswer := propertyValue.value
  let fakeOptions := generateFakeOptions correctAnswer property.property_type
  let allOptions := correctAnswer :: fakeOptions
  let shuffledOptions := shuffle allOptions
  { instance_id := instance_id
    property_id := property.id
    flashcard_type := .multiple_choice
    question := "What is the " ++ property.name ++ " of '" ++ instanceName ++ "'?"
    correct_answer := correctAnswer
    options := some shuffledOptions }

/-- The fill-in-blank card of one row (generate_flashcards.ts, lines 69-77). -/
def fillInBlankFlashcard (instance_id : Nat) (instanceName : String)
    (propertyValue : PropertyValue) (property : Property) : Flashcard :=
  { instance_id := instance_id
    property_id := property.id
    flashcard_type := .fill_in_blank
    question := "What is the " ++ property.name ++ " of '" ++ instanceName ++ "'?"
    correct_answer := propertyValue.value
    options := none }

/-- The generation loop of `generateFlashcards` (lines 37-80): for each
joined row, push the three cards in the order true/false, multiple-choice,
fill-in-blank. -/
def buildFlashcards (shuffle : List String → List String) (instance_id : Nat)
    (instanceName : String) : List (PropertyValue × Property) → List Flashcard
  | [] => []
  | (propertyValue, property) :: rest =>
    trueFalseFlashcard instance_id instanceName propertyValue property ::
    multipleChoiceFlashcard shuffle instance_id instanceName propertyValue property ::
    fillInBlankFlashcard instance_id instanceName propertyValue property ::
    buildFlashcards shuffle instance_id instanceName rest

/-- The database state the handler reads: the instance table and the
join of `property_values` with `properties`. -/
structure DB where
  instances : List InstanceRow
  rows : List (PropertyValue × Property)

/-- The error message of the unknown-instance branch (line 20). -/
def notFoundMsg (instance_id : Nat) : String :=
  "Instance with id " ++ String.mk (natToDigits instance_id) ++ " not found"

/-- The error message of the no-property-values branch (line 33). -/
def noPropertyValuesMsg (instance_id : Nat) : String :=
  "No property values found for instance " ++ String.mk (natToDigits instance_id)

/-- Embedding of the `generateFlashcards` handler: look the instance up,
join its property values, fail with the source's error messages before
anything is built or persisted, otherwise return the generated batch (the
insert and the returned list coincide in the source). -/
def generateFlashcards (shuffle : List String → List String) (db : DB)
    (instance_id : Nat) : Except String (List Flashcard) :=
  match db.instances.find? (fun i => i.id == instance_id) with
  | none => .error (notFoundMsg instance_id)
  | some inst =>
    let propertyValuesResult := db.rows.filter (fun r => r.1.instance_id == instance_id)
    if propertyValuesResult.isEmpty then
      .error (noPropertyValuesMsg instance_id)
    else
      .ok (buildFlashcards shuffle instance_id inst.name propertyValuesResult)

/-! ## The answer grader -/

/-- Model of JavaScript `String.prototype.trim`: drop whitespace from both
ends. -/
def jsTrim (s : String) : String :=
  String.mk
    (((s.toList.dropWhile (fun c : Char => c.isWhitespace)).reverse.dropWhile
      (fun c : Char => c.isWhitespace)).reverse)

/-- Model of JavaScript `String.prototype.toLowerCase` (ASCII case folding,
which covers every string the grader's fixed vocabularies compare). -/
def jsToLower (s : String) : String :=
  String.mk (s.toList.map Char.toLower)

/-- The accepted spellings of a true answer (submit-answer handler, line 31). -/
def trueVariations : List String := ["true", "t", "yes", "y", "1"]

/-- The accepted spellings of a false answer (submit-answer handler, line 32). -/
def falseVariations : List String := ["false", "f", "no", "n", "0"]

/-- The grading core of the `submitAnswer` handler (lines 21-42): trim both
strings; for true/false cards classify both against the fixed vocabularies,
otherwise compare case-insensitively. -/
def gradeAnswer (flashcard_type : FlashcardType) (correct_answer user_answer : String) : Bool :=
  let userAnswer := jsTrim user_answer
  let correctAnswer := jsTrim correct_answer
  match flashcard_type with
  | .true_false =>
    let normalizedUserAnswer := jsToLower userAnswer
    let normalizedCorrectAnswer := jsToLower correctAnswer
    let userIsTrue := trueVariations.contains normalizedUserAnswer
    let userIsFalse := falseVariations.contains normalizedUserAnswer
    let correctIsTrue := trueVariations.contains normalizedCorrectAnswer
    (userIsTrue && correctIsTrue) || (userIsFalse && !correctIsTrue)
  | _ => jsToLower userAnswer == jsToLower correctAnswer

/-! ## Supporting lemmas -/

lemma commonFakes_nodup : commonFakes.Nodup := by decide

/-- Filtering one string out of a duplicate-free list removes at most one
element. -/
lemma length_filter_bne (c : String) (l : List String) (h : l.Nodup) :
    l.length - 1 ≤ (l.filter (fun f => f != c)).length := by
  induction l with
  | nil => simp
  | cons a t ih =>
    rcases List.nodup_cons.mp h with ⟨ha, ht⟩
    by_cases hac : a = c
    · subst hac
      have hfil : t.filter (fun f => f != a) = t :=
        List.filter_eq_self.mpr fun x hx => bne_iff_ne.mpr fun hxa => ha (hxa ▸ hx)
      rw [List.filter_cons, if_neg (by simp), hfil]
      simp
    · have hrec := ih ht
      rw [List.filter_cons, if_pos (bne_iff_ne.mpr hac)]
      simp only [List.length_cons]
      omega

/-- The `while` loop of the string branch never runs: the accumulator it is
handed already has three entries. -/
lemma fillGenericOptions_of_length (fuel : Nat) (acc : List String) (c : String)
    (h : ¬ acc.length < 3) : fillGenericOptions fuel acc c = acc := by
  cases fuel <;> simp [fillGenericOptions, h]

lemma filter_commonFakes_length (c : String) :
    5 ≤ (commonFakes.filter (fun f => f != c)).length := by
  have h := length_filter_bne c commonFakes commonFakes_nodup
  simpa [commonFakes] using h

/-- The string branch reduces to the first three surviving pool entries. -/
lemma generateFakeOptions_string_eq (c : String) :
    generateFakeOptions c .string = (commonFakes.filter (fun f => f != c)).take 3 := by
  have h5 := filter_commonFakes_length c
  have h3 : ((commonFakes.filter (fun f => f != c)).take 3).length = 3 := by
    rw [List.length_take]
    omega
  show (fillGenericOptions 4 ((commonFakes.filter (fun f => f != c)).take 3) c).take 3 = _
  rw [fillGenericOptions_of_length 4 _ c (by omega)]
  exact List.take_of_length_le (le_of_eq h3)

lemma generateFakeOptions_length (c : String) (t : PropertyType) :
    (generateFakeOptions c t).length = 3 := by
  cases t with
  | number => cases h : jsParseFloat c <;> simp [generateFakeOptions, h]
  | boolean => simp [generateFakeOptions]
  | string =>
    rw [generateFakeOptions_string_eq, List.length_take]
    have h5 := filter_commonFakes_length c
    omega

lemma generateFakeOptions_string_nodup (c : String) :
    (generateFakeOptions c .string).Nodup := by
  rw [generateFakeOptions_string_eq]
  exact List.Nodup.sublist (List.take_sublist 3 _) (commonFakes_nodup.filter _)

lemma generateFakeOptions_string_not_mem (c : String) :
    c ∉ generateFakeOptions c .string := by
  rw [generateFakeOptions_string_eq]
  intro hc
  have hmem := List.mem_filter.mp (List.take_subset 3 _ hc)
  simp at hmem

/-- Every card the generation loop emits is one of the three cards of one of
the joined rows. -/
lemma mem_buildFlashcards {shuffle : List String → List String} {iid : Nat} {name : String}
    {rows : List (PropertyValue × Property)} {c : Flashcard}
    (h : c ∈ buildFlashcards shuffle iid name rows) :
    ∃ r ∈ rows, c = trueFalseFlashcard iid name r.1 r.2 ∨
      c = multipleChoiceFlashcard shuffle iid name r.1 r.2 ∨
      c = fillInBlankFlashcard iid name r.1 r.2 := by
  induction rows with
  | nil => simp [buildFlashcards] at h
  | cons r rest ih =>
    obtain ⟨pv, p⟩ := r
    simp only [buildFlashcards, List.mem_cons] at h
    rcases h with h | h | h | h
    · exact ⟨(pv, p), List.mem_cons_self _ _, Or.inl h⟩
    · exact ⟨(pv, p), List.mem_cons_self _ _, Or.inr (Or.inl h)⟩
    · exact ⟨(pv, p), List.mem_cons_self _ _, Or.inr (Or.inr h)⟩
    · obtain ⟨r', hr', hc'⟩ := ih h
      exact ⟨r', List.mem_cons_of_mem _ hr', hc'⟩

lemma buildFlashcards_length (shuffle : List String → List String) (iid : Nat) (name : String)
    (rows : List (PropertyValue × Property)) :
    (buildFlashcards shuffle iid name rows).length = 3 * rows.length := by
  induction rows with
  | nil => rfl
  | cons r rest ih =>
    obtain ⟨pv, p⟩ := r
    simp only [buildFlashcards, List.length_cons, ih]
    omega

lemma buildFlashcards_countP (shuffle : List String → List String) (iid : Nat) (name : String)
    (rows : List (PropertyValue × Property)) (t : FlashcardType) :
    (buildFlashcards shuffle iid name rows).countP (fun c => c.flashcard_type == t) =
      rows.length := by
  induction rows with
  | nil => cases t <;> rfl
  | cons r rest ih =>
    obtain ⟨pv, p⟩ := r
    simp only [buildFlashcards, List.countP_cons, ih, trueFalseFlashcard,
      multipleChoiceFlashcard, fillInBlankFlashcard, List.length_cons]
    cases t <;> simp

lemma buildFlashcards_eq_flatMap (shuffle : List String → List String) (iid : Nat) (name : String)
    (rows : List (PropertyValue × Property)) :
    buildFlashcards shuffle iid name rows =
      rows.flatMap (fun r =>
        [trueFalseFlashcard iid name r.1 r.2, multipleChoiceFlashcard shuffle iid name r.1 r.2,
          fillInBlankFlashcard iid name r.1 r.2]) := by
  induction rows with
  | nil => rfl
  | cons r rest ih =>
    obtain ⟨pv, p⟩ := r
    simp [buildFlashcards, ih]

/-- The two failure messages of the handler never coincide (their fixed
parts have different lengths). -/
lemma noPropertyValuesMsg_ne_notFoundMsg (iid : Nat) :
    noPropertyValuesMsg iid ≠ notFoundMsg iid := by
  intro h
  have hlen := congrArg String.length h
  have e1 : ("No property values found for instance " : String).length = 38 := rfl
  have e2 : ("Instance with id " : String).length = 17 := rfl
  have e3 : (" not found" : String).length = 10 := rfl
  simp only [noPropertyValuesMsg, notFoundMsg, String.length_append, e1, e2, e3] at hlen
  omega

/-- The multiple-choice options of a string-typed property are
duplicate-free and contain the correct answer exactly once. -/
lemma multipleChoice_string_options (shuffle : List String → List String)
    (hs : ∀ l, List.Perm (shuffle l) l) (iid : Nat) (name : String)
    (pv : PropertyValue) (p : Property) (hstr : p.property_type = .string) :
    ((multipleChoiceFlashcard shuffle iid name pv p).options.getD []).Nodup ∧
    ((multipleChoiceFlashcard shuffle iid name pv p).options.getD []).count
      ((multipleChoiceFlashcard shuffle iid name pv p).correct_answer) = 1 := by
  simp only [multipleChoiceFlashcard, hstr, Option.getD_some]
  have hperm := hs (pv.value :: generateFakeOptions pv.value .string)
  have hnm := generateFakeOptions_string_not_mem pv.value
  have hnd : (pv.value :: generateFakeOptions pv.value .string).Nodup :=
    List.nodup_cons.mpr ⟨hnm, generateFakeOptions_string_nodup pv.value⟩
  refine ⟨hperm.nodup_iff.mpr hnd, ?_⟩
  rw [hperm.count_eq, List.count_cons_self, List.count_eq_zero.mpr hnm]

/-! ## The claims -/

/-- C1, corrected.  In the claimed form ("the options list has exactly 4
entries, contains the flashcard's correct_answer exactly once, and all 4
entries are pairwise distinct" for every generated multiple-choice card) the
invariant fails on numeric and boolean property values; what holds for every
generated multiple-choice card is: the options list has exactly 4 entries
and contains the correct answer, and when the card is the multiple-choice
card of a string-typed property the correct answer occurs exactly once and
all entries are pairwise distinct. -/
theorem C1_multiple_choice_composition (shuffle : List String → List String)
    (hs : ∀ l, List.Perm (shuffle l) l) (iid : Nat) (name : String)
    (rows : List (PropertyValue × Property)) (c : Flashcard)
    (hmem : c ∈ buildFlashcards shuffle iid name rows)
    (hty : c.flashcard_type = .multiple_choice) :
    c.options ≠ none ∧ (c.options.getD []).length = 4 ∧
      c.correct_answer ∈ c.options.getD [] ∧
      ∀ pv p, c = multipleChoiceFlashcard shuffle iid name pv p →
        p.property_type = .string →
        (c.options.getD []).Nodup ∧ (c.options.getD []).count c.correct_answer = 1 := by
  obtain ⟨⟨pv, p⟩, hr, hc⟩ := mem_buildFlashcards hmem
  rcases hc with hc | hc | hc
  · rw [hc] at hty
    simp [trueFalseFlashcard] at hty
  · subst hc
    have hperm := hs (pv.value :: generateFakeOptions pv.value p.property_type)
    refine ⟨by simp [multipleChoiceFlashcard], ?_, ?_, ?_⟩
    · simp only [multipleChoiceFlashcard, Option.getD_some]
      rw [hperm.length_eq, List.length_cons, generateFakeOptions_length]
    · simp only [multipleChoiceFlashcard, Option.getD_some]
      exact hperm.mem_iff.mpr (List.mem_cons_self _ _)
    · intro pv' p' hceq hstr
      rw [hceq]
      exact multipleChoice_string_options shuffle hs iid name pv' p' hstr
  · rw [hc] at hty
    simp [fillInBlankFlashcard] at hty

/-- Witness for C1: a concrete string-typed generation run satisfying every
hypothesis of the theorem. -/
theorem C1_multiple_choice_composition_witness :
    (⟨1, 2, .multiple_choice, "What is the color of 'Widget'?", "blue",
        some ["blue", "Unknown", "Not Available", "Placeholder"]⟩ : Flashcard) ∈
      buildFlashcards (fun l => l) 1 "Widget"
        [(⟨1, 1, "blue"⟩, ⟨2, "color", PropertyType.string⟩)] ∧
    (["blue", "Unknown", "Not Available", "Placeholder"] : List String).length = 4 ∧
    "blue" ∈ (["blue", "Unknown", "Not Available", "Placeholder"] : List String) := by
  refine ⟨by decide, ?_, ?_⟩
  · exact (C1_multiple_choice_composition (fun l => l) (fun l => List.Perm.refl l) 1 "Widget"
      [(⟨1, 1, "blue"⟩, ⟨2, "color", PropertyType.string⟩)]
      ⟨1, 2, .multiple_choice, "What is the color of 'Widget'?", "blue",
        some ["blue", "Unknown", "Not Available", "Placeholder"]⟩ (by decide) rfl).2.1
  · exact (C1_multiple_choice_composition (fun l => l) (fun l => List.Perm.refl l) 1 "Widget"
      [(⟨1, 1, "blue"⟩, ⟨2, "color", PropertyType.string⟩)]
      ⟨1, 2, .multiple_choice, "What is the color of 'Widget'?", "blue",
        some ["blue", "Unknown", "Not Available", "Placeholder"]⟩ (by decide) rfl).2.2.1

/-- Counterexample to C1 as stated: generating for the numeric value "0"
(with the identity permutation as the shuffle) yields the multiple-choice
options ["0", "1", "-1", "0"], in which the correct answer "0" occurs twice,
so the options are neither duplicate-free nor contain the correct answer
exactly once; the boolean value "maybe" likewise yields options containing
"maybe" twice. -/
theorem C1_multiple_choice_composition_counterexample :
    generateFlashcards (fun l => l)
        ⟨[⟨1, "Widget"⟩], [(⟨1, 1, "0"⟩, ⟨1, "count", PropertyType.number⟩)]⟩ 1 =
      .ok [⟨1, 1, .true_false, "Is the count of 'Widget' equal to '0'?", "true", none⟩,
        ⟨1, 1, .multiple_choice, "What is the count of 'Widget'?", "0",
          some ["0", "1", "-1", "0"]⟩,
        ⟨1, 1, .fill_in_blank, "What is the count of 'Widget'?", "0", none⟩] ∧
    (["0", "1", "-1", "0"] : List String).count "0" = 2 ∧
    ¬ (["0", "1", "-1", "0"] : List String).Nodup ∧
    (multipleChoiceFlashcard (fun l => l) 1 "Gadget" ⟨1, 2, "maybe"⟩
        ⟨2, "certainty", PropertyType.boolean⟩).options =
      some ["maybe", "true", "maybe", "unknown"] := by
  exact ⟨rfl, by decide, by decide, rfl⟩

/-- C2, corrected.  In the claimed form ("for every correct answer string
and every property type, exactly 3 fake options, none equal to the correct
answer, pairwise distinct") the contract fails for the number and boolean
branches; what holds for every correct answer and property type is: the
synthesizer returns exactly 3 strings, and for the string property type
they are pairwise distinct and none equals the correct answer. -/
theorem C2_fake_option_contract (correctAnswer : String) (propertyType : PropertyType) :
    (generateFakeOptions correctAnswer propertyType).length = 3 ∧
    (propertyType = .string →
      (generateFakeOptions correctAnswer propertyType).Nodup ∧
      correctAnswer ∉ generateFakeOptions correctAnswer propertyType) := by
  refine ⟨generateFakeOptions_length correctAnswer propertyType, ?_⟩
  intro h
  subst h
  exact ⟨generateFakeOptions_string_nodup correctAnswer,
    generateFakeOptions_string_not_mem correctAnswer⟩

/-- Witness for C2 at the concrete input ("Paris", string). -/
theorem C2_fake_option_contract_witness :
    (generateFakeOptions "Paris" PropertyType.string).length = 3 ∧
    (generateFakeOptions "Paris" PropertyType.string).Nodup ∧
    "Paris" ∉ generateFakeOptions "Paris" PropertyType.string := by
  exact ⟨(C2_fake_option_contract "Paris" PropertyType.string).1,
    (C2_fake_option_contract "Paris" PropertyType.string).2 rfl⟩

/-- Counterexample to C2 as stated: for the numeric correct answer "0" the
fakes are ["1", "-1", "0"], which include the correct answer; for "1" they
are ["2", "0", "2"], which are not pairwise distinct; for the boolean
correct answer "maybe" the fakes include "maybe". -/
theorem C2_fake_option_contract_counterexample :
    generateFakeOptions "0" PropertyType.number = ["1", "-1", "0"] ∧
    "0" ∈ generateFakeOptions "0" PropertyType.number ∧
    generateFakeOptions "1" PropertyType.number = ["2", "0", "2"] ∧
    ¬ (generateFakeOptions "1" PropertyType.number).Nodup ∧
    generateFakeOptions "maybe" PropertyType.boolean = ["true", "maybe", "unknown"] ∧
    "maybe" ∈ generateFakeOptions "maybe" PropertyType.boolean := by
  exact ⟨by decide, by decide, by decide, by decide, by decide, by decide⟩

/-- C3, confirmed: grading a true/false flashcard trims and lower-cases
both strings, classifies them against the fixed vocabularies
["true", "t", "yes", "y", "1"] and ["false", "f", "no", "n", "0"], and is
correct iff (user is-true and correct is-true) or (user is-false and
correct not is-true); in particular grading correct answer "true" against
user answer "Y" succeeds, "false" against "no" succeeds, and "true" against
"false" fails. -/
theorem C3_true_false_rule :
    trueVariations = ["true", "t", "yes", "y", "1"] ∧
    falseVariations = ["false", "f", "no", "n", "0"] ∧
    (∀ correct_answer user_answer : String,
      gradeAnswer .true_false correct_answer user_answer =
        ((trueVariations.contains (jsToLower (jsTrim user_answer)) &&
          trueVariations.contains (jsToLower (jsTrim correct_answer))) ||
         (falseVariations.contains (jsToLower (jsTrim user_answer)) &&
          !trueVariations.contains (jsToLower (jsTrim correct_answer))))) ∧
    gradeAnswer .true_false "true" "Y" = true ∧
    gradeAnswer .true_false "false" "no" = true ∧
    gradeAnswer .true_false "true" "false" = false := by
  exact ⟨rfl, rfl, fun _ _ => rfl, by decide, by decide, by decide⟩

/-- C4, corrected.  In the claimed form ("a user answer outside both
vocabularies is treated as is-false-equivalent, so the verdict is true
exactly when the correct answer is not classified is-true") the claim fails:
the `userIsFalse && !correctIsTrue` branch also requires the user answer to
be in the false-vocabulary, so a user answer outside both vocabularies is
graded incorrect (false) unconditionally, regardless of the correct
answer's classification. -/
theorem C4_unrecognized_user_answer (correct_answer user_answer : String)
    (h1 : trueVariations.contains (jsToLower (jsTrim user_answer)) = false)
    (h2 : falseVariations.contains (jsToLower (jsTrim user_answer)) = false) :
    gradeAnswer .true_false correct_answer user_answer = false := by
  have h1' : jsToLower (jsTrim user_answer) ∉ trueVariations := by simpa using h1
  have h2' : jsToLower (jsTrim user_answer) ∉ falseVariations := by simpa using h2
  simp [gradeAnswer, h1', h2']

/-- Witness for C4 with a correct answer in the true-vocabulary. -/
theorem C4_unrecognized_user_answer_witness :
    trueVariations.contains (jsToLower (jsTrim "banana")) = false ∧
    falseVariations.contains (jsToLower (jsTrim "banana")) = false ∧
    gradeAnswer .true_false "true" "banana" = false := by
  exact ⟨by decide, by decide, C4_unrecognized_user_answer "true" "banana" (by decide) (by decide)⟩

/-- Counterexample to C4 as stated: the user answer "banana" is in neither
vocabulary and the correct answer "false" is not in the true-vocabulary, so
the claimed is-false-equivalent rule demands the verdict true, but grading
returns false. -/
theorem C4_unrecognized_user_answer_counterexample :
    trueVariations.contains (jsToLower (jsTrim "banana")) = false ∧
    falseVariations.contains (jsToLower (jsTrim "banana")) = false ∧
    trueVariations.contains (jsToLower (jsTrim "false")) = false ∧
    gradeAnswer .true_false "false" "banana" ≠ true := by
  exact ⟨by decide, by decide, by decide, by decide⟩

/-- C5, confirmed: grading a multiple-choice or fill-in-blank flashcard
returns true iff the trimmed, lower-cased user answer equals the trimmed,
lower-cased correct answer; in particular "PARIS" and "paris " both grade
correct against "Paris". -/
theorem C5_text_grading :
    (∀ correct_answer user_answer : String,
      gradeAnswer .multiple_choice correct_answer user_answer =
        (jsToLower (jsTrim user_answer) == jsToLower (jsTrim correct_answer))) ∧
    (∀ correct_answer user_answer : String,
      gradeAnswer .fill_in_blank correct_answer user_answer =
        (jsToLower (jsTrim user_answer) == jsToLower (jsTrim correct_answer))) ∧
    gradeAnswer .fill_in_blank "Paris" "PARIS" = true ∧
    gradeAnswer .fill_in_blank "Paris" "paris " = true := by
  exact ⟨fun _ _ => rfl, fun _ _ => rfl, by decide, by decide⟩

/-- C7, confirmed: a successful generation run over N joined property-value
rows returns exactly 3N flashcards, N of each type, and the output is the
concatenation, row by row in input order, of the contiguous triple
(true_false, multiple_choice, fill_in_blank). -/
theorem C7_triple_completeness (shuffle : List String → List String) (db : DB) (iid : Nat)
    (inst : InstanceRow) (l : List Flashcard)
    (hfind : db.instances.find? (fun i => i.id == iid) = some inst)
    (hok : generateFlashcards shuffle db iid = .ok l) :
    l.length = 3 * (db.rows.filter (fun r => r.1.instance_id == iid)).length ∧
    l.countP (fun c => c.flashcard_type == .true_false) =
      (db.rows.filter (fun r => r.1.instance_id == iid)).length ∧
    l.countP (fun c => c.flashcard_type == .multiple_choice) =
      (db.rows.filter (fun r => r.1.instance_id == iid)).length ∧
    l.countP (fun c => c.flashcard_type == .fill_in_blank) =
      (db.rows.filter (fun r => r.1.instance_id == iid)).length ∧
    l = (db.rows.filter (fun r => r.1.instance_id == iid)).flatMap (fun r =>
      [trueFalseFlashcard iid inst.name r.1 r.2,
        multipleChoiceFlashcard shuffle iid inst.name r.1 r.2,
        fillInBlankFlashcard iid inst.name r.1 r.2]) := by
  simp only [generateFlashcards, hfind] at hok
  by_cases hemp : (db.rows.filter (fun r => r.1.instance_id == iid)).isEmpty
  · rw [if_pos hemp] at hok
    exact absurd hok (by simp)
  · rw [if_neg hemp] at hok
    injection hok with hl
    subst hl
    exact ⟨buildFlashcards_length _ _ _ _, buildFlashcards_countP _ _ _ _ _,
      buildFlashcards_countP _ _ _ _ _, buildFlashcards_countP _ _ _ _ _,
      buildFlashcards_eq_flatMap _ _ _ _⟩

/-- Witness for C7: a one-row generation run producing 3 cards, one of each
type, in the order true_false, multiple_choice, fill_in_blank. -/
theorem C7_triple_completeness_witness :
    (DB.mk [⟨1, "Widget"⟩]
        [(⟨1, 1, "blue"⟩, ⟨2, "color", PropertyType.string⟩)]).instances.find?
      (fun i => i.id == 1) = some ⟨1, "Widget"⟩ ∧
    generateFlashcards (fun l => l)
        (DB.mk [⟨1, "Widget"⟩] [(⟨1, 1, "blue"⟩, ⟨2, "color", PropertyType.string⟩)]) 1 =
      .ok [⟨1, 2, .true_false, "Is the color of 'Widget' equal to 'blue'?", "true", none⟩,
        ⟨1, 2, .multiple_choice, "What is the color of 'Widget'?", "blue",
          some ["blue", "Unknown", "Not Available", "Placeholder"]⟩,
        ⟨1, 2, .fill_in_blank, "What is the color of 'Widget'?", "blue", none⟩] ∧
    ([⟨1, 2, .true_false, "Is the color of 'Widget' equal to 'blue'?", "true", none⟩,
      ⟨1, 2, .multiple_choice, "What is the color of 'Widget'?", "blue",
        some ["blue", "Unknown", "Not Available", "Placeholder"]⟩,
      ⟨1, 2, .fill_in_blank, "What is the color of 'Widget'?", "blue", none⟩] :
        List Flashcard).length = 3 * 1 := by
  refine ⟨by decide, rfl, ?_⟩
  exact (C7_triple_completeness (fun l => l)
    (DB.mk [⟨1, "Widget"⟩] [(⟨1, 1, "blue"⟩, ⟨2, "color", PropertyType.string⟩)]) 1
    ⟨1, "Widget"⟩ _ (by decide) rfl).1

/-- C8, confirmed: every generated true/false flashcard has the question
text "Is the {property.name} of '{instanceName}' equal to '{value}'?", the
literal correct answer "true", and absent options. -/
theorem C8_true_false_shape (shuffle : List String → List String) (iid : Nat) (name : String)
    (rows : List (PropertyValue × Property)) (c : Flashcard)
    (hmem : c ∈ buildFlashcards shuffle iid name rows)
    (hty : c.flashcard_type = .true_false) :
    c.correct_answer = "true" ∧ c.options = none ∧
    ∃ r ∈ rows, c.question =
      "Is the " ++ r.2.name ++ " of '" ++ name ++ "' equal to '" ++ r.1.value ++ "'?" := by
  obtain ⟨⟨pv, p⟩, hr, hc⟩ := mem_buildFlashcards hmem
  rcases hc with hc | hc | hc
  · subst hc
    exact ⟨rfl, rfl, ⟨(pv, p), hr, rfl⟩⟩
  · rw [hc] at hty
    simp [multipleChoiceFlashcard] at hty
  · rw [hc] at hty
    simp [fillInBlankFlashcard] at hty

/-- Witness for C8: the true/false card of a concrete run. -/
theorem C8_true_false_shape_witness :
    (⟨1, 2, .true_false, "Is the color of 'Widget' equal to 'blue'?", "true", none⟩ :
        Flashcard) ∈
      buildFlashcards (fun l => l) 1 "Widget"
        [(⟨1, 1, "blue"⟩, ⟨2, "color", PropertyType.string⟩)] ∧
    ((⟨1, 2, .true_false, "Is the color of 'Widget' equal to 'blue'?", "true", none⟩ :
        Flashcard).correct_answer = "true" ∧
      (⟨1, 2, .true_false, "Is the color of 'Widget' equal to 'blue'?", "true", none⟩ :
        Flashcard).options = none ∧
      ∃ r ∈ [((⟨1, 1, "blue"⟩ : PropertyValue), (⟨2, "color", PropertyType.string⟩ : Property))],
        (⟨1, 2, .true_false, "Is the color of 'Widget' equal to 'blue'?", "true", none⟩ :
          Flashcard).question =
          "Is the " ++ r.2.name ++ " of '" ++ "Widget" ++ "' equal to '" ++ r.1.value ++ "'?") := by
  refine ⟨by decide, ?_⟩
  exact C8_true_false_shape (fun l => l) 1 "Widget"
    [(⟨1, 1, "blue"⟩, ⟨2, "color", PropertyType.string⟩)]
    ⟨1, 2, .true_false, "Is the color of 'Widget' equal to 'blue'?", "true", none⟩
    (by decide) rfl

/-- C9, confirmed: when the instance exists but has no joined property
values, generation fails with the no-property-values error, which differs
from the not-found error raised for an unknown instance id; the failure is
raised before any flashcard is built or inserted, so nothing is persisted
(in the source the `throw` precedes the `db.insert`). -/
theorem C9_empty_precondition (shuffle : List String → List String) (db : DB) (iid : Nat)
    (inst : InstanceRow)
    (hfind : db.instances.find? (fun i => i.id == iid) = some inst)
    (hempty : db.rows.filter (fun r => r.1.instance_id == iid) = []) :
    generateFlashcards shuffle db iid = .error (noPropertyValuesMsg iid) ∧
    noPropertyValuesMsg iid ≠ notFoundMsg iid := by
  refine ⟨?_, noPropertyValuesMsg_ne_notFoundMsg iid⟩
  simp [generateFlashcards, hfind, hempty]

/-- Witness for C9: an instance with no property values. -/
theorem C9_empty_precondition_witness :
    ((DB.mk [⟨1, "EmptyInstance"⟩] []).instances.find? (fun i => i.id == 1) =
      some ⟨1, "EmptyInstance"⟩) ∧
    ((DB.mk [⟨1, "EmptyInstance"⟩] []).rows.filter (fun r => r.1.instance_id == 1) = []) ∧
    generateFlashcards (fun l => l) (DB.mk [⟨1, "EmptyInstance"⟩] []) 1 =
      .error (noPropertyValuesMsg 1) ∧
    noPropertyValuesMsg 1 ≠ notFoundMsg 1 := by
  refine ⟨by decide, by decide, ?_, ?_⟩
  · exact (C9_empty_precondition (fun l => l) (DB.mk [⟨1, "EmptyInstance"⟩] []) 1
      ⟨1, "EmptyInstance"⟩ (by decide) (by decide)).1
  · exact (C9_empty_precondition (fun l => l) (DB.mk [⟨1, "EmptyInstance"⟩] []) 1
      ⟨1, "EmptyInstance"⟩ (by decide) (by decide)).2

/-- C10, confirmed: a user answer whose trimmed, lower-cased form is in
neither vocabulary is graded incorrect unconditionally, whatever the
correct answer is. -/
theorem C10_neither_vocabulary_false (correct_answer user_answer : String)
    (h1 : trueVariations.contains (jsToLower (jsTrim user_answer)) = false)
    (h2 : falseVariations.contains (jsToLower (jsTrim user_answer)) = false) :
    gradeAnswer .true_false correct_answer user_answer = false := by
  have h1' : jsToLower (jsTrim user_answer) ∉ trueVariations := by simpa using h1
  have h2' : jsToLower (jsTrim user_answer) ∉ falseVariations := by simpa using h2
  simp [gradeAnswer, h1', h2']

/-- Witness for C10 with a correct answer outside both vocabularies. -/
theorem C10_neither_vocabulary_false_witness :
    trueVariations.contains (jsToLower (jsTrim "perhaps")) = false ∧
    falseVariations.contains (jsToLower (jsTrim "perhaps")) = false ∧
    gradeAnswer .true_false "yes" "perhaps" = false := by
  exact ⟨by decide, by decide,
    C10_neither_vocabulary_false "yes" "perhaps" (by decide) (by decide)⟩

end DynamicFlashcards
